import Mathlib

/-!
Verification of the pizza-restaurant API core against its source.

Shallow embedding conventions:
- Python floats are modelled as rationals (`ℚ`); Python's `round(x, 2)`
  (round-half-to-even) becomes `pyRound2`.
- `datetime` instants are modelled as integer timestamps (`Int`); the hidden
  `datetime.utcnow()` dependency inside `get_current_price`,
  `get_discount_percentage` and `increment_order_count` becomes an explicit
  `now : Int` argument.
- Python's `raise ValueError(msg)` becomes `Except String` results; a method
  that mutates `self` becomes a function `Pizza → ... → Pizza` (or
  `Except String Pizza` when it can raise), so an `.error` result leaves no
  new state — the Python object is unchanged when the exception is raised
  before any assignment, as it is in every operation below.
- JSON-able Python values are the inductive `PyValue`; the `customization_options`
  text column stores `json.dumps` of a dict and is only ever read back through
  `json.loads`, so it is modelled as the structured blob `Option PyValue`
  (the serialization contract, not the storage encoding, is what the spec fixes).
-/

namespace PizzaApi

/-- A JSON-able Python value, as handled by `json.dumps`/`json.loads` and by
`flask.request.get_json`. -/
inductive PyValue where
  | pyStr : String → PyValue
  | pyInt : Int → PyValue
  | pyFloat : ℚ → PyValue
  | pyBool : Bool → PyValue
  | pyNone : PyValue
  | pyList : List PyValue → PyValue
  | pyDict : List (String × PyValue) → PyValue

/-- Python's `round(q, 2)` on an exact rational: round half to even at the
second decimal. -/
def roundHalfEven (q : ℚ) : Int :=
  let f := ⌊q⌋
  let r := q - f
  if r < 1/2 then f
  else if 1/2 < r then f + 1
  else if f % 2 = 0 then f else f + 1

/-- `round(q, 2)`. -/
def pyRound2 (q : ℚ) : ℚ := (roundHalfEven (q * 100) : ℚ) / 100

/-- The `pizzas` table row (`server/models/pizza.py`, class `Pizza`), with the
column defaults of the source. Nullable columns are `Option`s. -/
structure Pizza where
  id : Option Int := none
  name : String
  ingredients : String
  price : ℚ
  description : Option String := none
  image_url : Option String := none
  category : String := "classic"
  size : String := "medium"
  is_available : Bool := true
  rating : ℚ := 0
  rating_count : Nat := 0
  prep_time : Option Int := none
  allergens : Option String := none
  calories : Option Int := none
  protein : Option ℚ := none
  carbohydrates : Option ℚ := none
  fat : Option ℚ := none
  sodium : Option Int := none
  customization_options : Option PyValue := none
  order_count : Nat := 0
  last_ordered_at : Option Int := none
  is_special : Bool := false
  special_price : Option ℚ := none
  special_start_date : Option Int := none
  special_end_date : Option Int := none

/-- `Pizza(name=..., ingredients=..., price=...)`: a fresh row carrying the
column defaults for every other field. -/
def Pizza.make (name ingredients : String) (price : ℚ) : Pizza :=
  { name := name, ingredients := ingredients, price := price }

/-- `Pizza.VALID_SIZES`. -/
def Pizza.VALID_SIZES : List String := ["small", "medium", "large"]

/-- `Pizza.SIZE_PRICE_MULTIPLIERS`. -/
def Pizza.SIZE_PRICE_MULTIPLIERS : List (String × ℚ) :=
  [("small", 1), ("medium", 3/2), ("large", 2)]

/-- `Pizza.get_price_for_size`: raises `ValueError` on a size outside
`VALID_SIZES`, else multiplies the base price by the size's multiplier. -/
def Pizza.get_price_for_size (p : Pizza) (size : String) : Except String ℚ :=
  if size ∉ Pizza.VALID_SIZES then
    .error ("Invalid size: " ++ size)
  else
    .ok (p.price * ((Pizza.SIZE_PRICE_MULTIPLIERS.lookup size).getD 0))

/-- `Pizza.toggle_availability`. -/
def Pizza.toggle_availability (p : Pizza) : Pizza :=
  { p with is_available := !p.is_available }

/-- `Pizza.update_rating`: rejects ratings outside `[0, 5]`, otherwise folds the
new rating into the running mean and increments the count. -/
def Pizza.update_rating (p : Pizza) (new_rating : ℚ) : Except String Pizza :=
  if new_rating < 0 ∨ new_rating > 5 then
    .error "Rating must be between 0 and 5"
  else
    let total_rating := p.rating * (p.rating_count : ℚ) + new_rating
    let rc := p.rating_count + 1
    .ok { p with rating_count := rc, rating := total_rating / (rc : ℚ) }

/-- `Pizza.get_allergens_list`: split the comma-separated column, stripping
whitespace; an unset or empty column gives `[]`. -/
def Pizza.get_allergens_list (p : Pizza) : List String :=
  match p.allergens with
  | none => []
  | some s => if s = "" then [] else (s.splitOn ",").map String.trim

/-- `Pizza.get_customization_options`: `json.loads` of the stored blob, `{}`
when unset. -/
def Pizza.get_customization_options (p : Pizza) : PyValue :=
  match p.customization_options with
  | none => .pyDict []
  | some v => v

/-- `Pizza.set_customization_options`: rejects any non-dict input with
`ValueError`, else stores `json.dumps(options)`. -/
def Pizza.set_customization_options (p : Pizza) (options : PyValue) :
    Except String Pizza :=
  match options with
  | .pyDict kvs => .ok { p with customization_options := some (.pyDict kvs) }
  | _ => .error "Customization options must be a dictionary"

/-- `Pizza.increment_order_count`: bump the counter and stamp `utcnow()`. -/
def Pizza.increment_order_count (p : Pizza) (now : Int) : Pizza :=
  { p with order_count := p.order_count + 1, last_ordered_at := some now }

/-- `start_date is None or now >= start_date`. -/
def afterStart (start : Option Int) (now : Int) : Bool :=
  match start with
  | none => true
  | some s => decide (s ≤ now)

/-- `end_date is None or now <= end_date`. -/
def beforeEnd (stop : Option Int) (now : Int) : Bool :=
  match stop with
  | none => true
  | some e => decide (now ≤ e)

/-- `Pizza.get_current_price`: the special price while
`is_special and special_price is not None` and `utcnow()` lies inside the
(open-ended) offer window, else the base price. -/
def Pizza.get_current_price (p : Pizza) (now : Int) : ℚ :=
  match p.is_special, p.special_price with
  | true, some sp =>
      if afterStart p.special_start_date now && beforeEnd p.special_end_date now then
        sp
      else p.price
  | _, _ => p.price

/-- `Pizza.get_discount_percentage`:
`round(((price - special_price) / price) * 100, 2)` while the offer is active,
else `0.0`. -/
def Pizza.get_discount_percentage (p : Pizza) (now : Int) : ℚ :=
  match p.is_special, p.special_price with
  | true, some sp =>
      if afterStart p.special_start_date now && beforeEnd p.special_end_date now then
        pyRound2 (((p.price - sp) / p.price) * 100)
      else 0
  | _, _ => 0

/-- `Pizza.set_special_offer`: raises `ValueError` when
`special_price >= self.price`, else activates the offer and stores the three
fields (dates may be `None`). -/
def Pizza.set_special_offer (p : Pizza) (special_price : ℚ)
    (start_date end_date : Option Int) : Except String Pizza :=
  if p.price ≤ special_price then
    .error "Special price must be less than regular price"
  else
    .ok { p with is_special := true, special_price := some special_price,
                 special_start_date := start_date, special_end_date := end_date }

/-- `Pizza.end_special_offer`: unconditionally resets the four offer fields. -/
def Pizza.end_special_offer (p : Pizza) : Pizza :=
  { p with is_special := false, special_price := none,
           special_start_date := none, special_end_date := none }

/-- `update_rating` folded over a list of submissions, left to right. -/
def applyRatings (p : Pizza) : List ℚ → Except String Pizza
  | [] => .ok p
  | r :: rs =>
      match p.update_rating r with
      | .ok p' => applyRatings p' rs
      | .error m => .error m

/-- The spec's activity predicate for a special offer, written from its words:
`is_special` is true AND `special_price` is set AND (no start date or
now ≥ start) AND (no end date or now ≤ end). -/
def specialActiveB (p : Pizza) (now : Int) : Bool :=
  p.is_special && p.special_price.isSome
    && p.special_start_date.all (fun s => decide (s ≤ now))
    && p.special_end_date.all (fun e => decide (now ≤ e))

/-- Modelled from the spec: the file `server/models/restaurant_pizza.py`
(class `RestaurantPizza`) is imported by the controller and the seed script but
is not part of the sources given; §3 of the spec — `id`, `price` (must be in
`[1, 30]` inclusive), `pizza_id`, `restaurant_id`. -/
structure RestaurantPizza where
  id : Option Int := none
  price : ℚ
  pizza_id : Int
  restaurant_id : Int

/-- Modelled from the spec: construction of a `RestaurantPizza` (its model file
is not part of the sources given); §4.3 — validation: `price` must be within
`[1, 30]`; otherwise fails with `InvalidArgument`
("price must be between 1 and 30") surfaced to the caller. -/
def RestaurantPizza.create (price : ℚ) (pizza_id restaurant_id : Int) :
    Except String RestaurantPizza :=
  if price < 1 ∨ 30 < price then
    .error "price must be between 1 and 30"
  else
    .ok { price := price, pizza_id := pizza_id, restaurant_id := restaurant_id }

/-- Modelled from the spec: `RestaurantPizza.to_dict` (its model file is not
part of the sources given); §4.3 — plain field serialization. -/
def RestaurantPizza.to_dict (rp : RestaurantPizza) : PyValue :=
  .pyDict [("id", match rp.id with | none => .pyNone | some n => .pyInt n),
           ("price", .pyFloat rp.price),
           ("pizza_id", .pyInt rp.pizza_id),
           ("restaurant_id", .pyInt rp.restaurant_id)]

/-- Outcome of a Python `try` body: a value, a raised `ValueError` (with its
message), or any other raised exception. -/
inductive PyOutcome (α : Type) where
  | ok : α → PyOutcome α
  | valueError : String → PyOutcome α
  | otherError : String → PyOutcome α

/-- Exception propagation through sequenced Python statements. -/
def PyOutcome.bind {α β : Type} (x : PyOutcome α) (f : α → PyOutcome β) :
    PyOutcome β :=
  match x with
  | .ok a => f a
  | .valueError m => .valueError m
  | .otherError m => .otherError m

/-- A raised model-level `ValueError` enters the `try` body as such. -/
def PyOutcome.ofExcept {α : Type} (x : Except String α) : PyOutcome α :=
  match x with
  | .ok a => .ok a
  | .error m => .valueError m

/-- `data[key]`: a missing key raises `KeyError`, which is not a
`ValueError`. -/
def dictGet (data : List (String × PyValue)) (key : String) : PyOutcome PyValue :=
  match data.lookup key with
  | some v => .ok v
  | none => .otherError ("KeyError: " ++ key)

/-- A JSON value used as a Python number: comparing any other shape against the
price bounds raises `TypeError` (not a `ValueError`); `bool` is an `int`
subclass in Python. -/
def asNumber (v : PyValue) : PyOutcome ℚ :=
  match v with
  | .pyInt n => .ok (n : ℚ)
  | .pyFloat q => .ok q
  | .pyBool b => .ok (if b then 1 else 0)
  | _ => .otherError "TypeError: unorderable types"

/-- A JSON value used as a foreign-key id: in the model a non-integer id makes
the persistence layer raise (not a `ValueError`). -/
def asId (v : PyValue) : PyOutcome Int :=
  match v with
  | .pyInt n => .ok n
  | .pyBool b => .ok (if b then 1 else 0)
  | _ => .otherError "TypeError: id must be an integer"

/-- The `try` body of `create_restaurant_pizza`
(`server/controllers/restaurant_pizza_controller.py`): read the three keys from
the JSON body, construct the `RestaurantPizza`, then
`db.session.add` / `db.session.commit`. The persistence layer is external
(spec §2, §6); `persistOk` abstracts whether add/commit succeed — a database
failure (bad foreign key, connection error) raises a non-`ValueError`
exception. -/
def tryCreate (data : List (String × PyValue)) (persistOk : Bool) :
    PyOutcome RestaurantPizza :=
  (dictGet data "price").bind fun priceV =>
  (dictGet data "pizza_id").bind fun pizzaV =>
  (dictGet data "restaurant_id").bind fun restV =>
  (asNumber priceV).bind fun price =>
  (asId pizzaV).bind fun pizza_id =>
  (asId restV).bind fun restaurant_id =>
  (PyOutcome.ofExcept (RestaurantPizza.create price pizza_id restaurant_id)).bind
    fun rp =>
  if persistOk then .ok rp else .otherError "OperationalError: commit failed"

/-- An HTTP response: status code and JSON body. -/
structure Response where
  status : Nat
  body : PyValue

/-- `{"errors": [...]}`. -/
def errorsBody (msgs : List String) : PyValue :=
  .pyDict [("errors", .pyList (msgs.map .pyStr))]

/-- `create_restaurant_pizza` (`POST /restaurant_pizzas`): 201 with the
serialized row on success; `except ValueError as e:` 400 with
`{"errors": [str(e)]}`; `except Exception as e:` 400 with
`{"errors": ["Invalid data"]}`. -/
def create_restaurant_pizza (data : List (String × PyValue)) (persistOk : Bool) :
    Response :=
  match tryCreate data persistOk with
  | .ok rp => { status := 201, body := rp.to_dict }
  | .valueError m => { status := 400, body := errorsBody [m] }
  | .otherError _ => { status := 400, body := errorsBody ["Invalid data"] }

/-! ### Claim theorems -/

/-- Claim C1: constructing a `RestaurantPizza` with a price outside the
inclusive range `[1, 30]` fails with the message
"price must be between 1 and 30", and construction with any price in
`[1, 30]` — the boundaries included — succeeds, keeping the given fields. -/
theorem restaurantPizza_price_bounds (price : ℚ) (pid rid : Int) :
    ((price < 1 ∨ 30 < price) →
      RestaurantPizza.create price pid rid =
        .error "price must be between 1 and 30") ∧
    (1 ≤ price → price ≤ 30 →
      RestaurantPizza.create price pid rid =
        .ok { price := price, pizza_id := pid, restaurant_id := rid }) := by
  constructor
  · intro h
    simp [RestaurantPizza.create, h]
  · intro h1 h2
    have hcond : ¬(price < 1 ∨ 30 < price) := by push_neg; exact ⟨h1, h2⟩
    simp [RestaurantPizza.create, hcond]

/-- Claim C1, instances: prices 0 and 31 are rejected, prices 1 and 30 are
accepted (boundaries inclusive). -/
theorem restaurantPizza_price_bounds_witness :
    RestaurantPizza.create 0 1 1 = .error "price must be between 1 and 30" ∧
    RestaurantPizza.create 31 1 1 = .error "price must be between 1 and 30" ∧
    RestaurantPizza.create 1 1 1 =
      .ok { price := 1, pizza_id := 1, restaurant_id := 1 } ∧
    RestaurantPizza.create 30 1 1 =
      .ok { price := 30, pizza_id := 1, restaurant_id := 1 } :=
  ⟨(restaurantPizza_price_bounds 0 1 1).1 (by norm_num),
   (restaurantPizza_price_bounds 31 1 1).1 (by norm_num),
   (restaurantPizza_price_bounds 1 1 1).2 (by norm_num) (by norm_num),
   (restaurantPizza_price_bounds 30 1 1).2 (by norm_num) (by norm_num)⟩

/-- Claim C5: `set_special_offer` with `special_price ≥ price` fails with a
`ValueError` and produces no new state (the offer fields are untouched);
with `special_price < price` it succeeds, setting `is_special`,
`special_price` and the two (possibly null) dates and changing nothing
else. -/
theorem set_special_offer_spec (p : Pizza) (sp : ℚ) (s e : Option Int) :
    (p.price ≤ sp →
      p.set_special_offer sp s e =
        .error "Special price must be less than regular price") ∧
    (sp < p.price →
      p.set_special_offer sp s e =
        .ok { p with is_special := true, special_price := some sp,
                     special_start_date := s, special_end_date := e }) := by
  constructor
  · intro h
    simp [Pizza.set_special_offer, h]
  · intro h
    simp [Pizza.set_special_offer, not_le.mpr h]

/-- Claim C5, instance: on a pizza with base price 20, a special price of 25 is
rejected and a special price of 10 is stored together with its dates. -/
theorem set_special_offer_spec_witness :
    (Pizza.make "Margherita" "Dough" 20).set_special_offer 25 none none =
      .error "Special price must be less than regular price" ∧
    (Pizza.make "Margherita" "Dough" 20).set_special_offer 10 (some 1) (some 9) =
      .ok { Pizza.make "Margherita" "Dough" 20 with
              is_special := true, special_price := some 10,
              special_start_date := some 1, special_end_date := some 9 } :=
  ⟨(set_special_offer_spec (Pizza.make "Margherita" "Dough" 20) 25 none none).1
      (by norm_num [Pizza.make]),
   (set_special_offer_spec (Pizza.make "Margherita" "Dough" 20) 10
      (some 1) (some 9)).2 (by norm_num [Pizza.make])⟩

/-- Claim C7: storing any key-value mapping through
`set_customization_options` and reading it back through
`get_customization_options` returns an equivalent mapping, while any
non-mapping input is rejected with a `ValueError`, producing no new state. -/
theorem customization_options_round_trip (p : Pizza)
    (kvs : List (String × PyValue)) (v : PyValue) :
    (∃ p', p.set_customization_options (.pyDict kvs) = .ok p' ∧
           p'.get_customization_options = .pyDict kvs) ∧
    ((∀ kvs0, v ≠ .pyDict kvs0) →
      p.set_customization_options v =
        .error "Customization options must be a dictionary") := by
  constructor
  · exact ⟨_, rfl, rfl⟩
  · intro h
    cases v with
    | pyDict kvs0 => exact absurd rfl (h kvs0)
    | pyStr _ => rfl
    | pyInt _ => rfl
    | pyFloat _ => rfl
    | pyBool _ => rfl
    | pyNone => rfl
    | pyList _ => rfl

/-- Claim C7, instance: `{"extra_cheese": true}` round-trips and the string
"not a dict" is rejected. -/
theorem customization_options_round_trip_witness :
    (∃ p', (Pizza.make "Margherita" "Dough" 10).set_customization_options
             (.pyDict [("extra_cheese", .pyBool true)]) = .ok p' ∧
           p'.get_customization_options =
             .pyDict [("extra_cheese", .pyBool true)]) ∧
    (Pizza.make "Margherita" "Dough" 10).set_customization_options
        (.pyStr "not a dict") =
      .error "Customization options must be a dictionary" :=
  ⟨(customization_options_round_trip (Pizza.make "Margherita" "Dough" 10)
      [("extra_cheese", .pyBool true)] (.pyStr "not a dict")).1,
   (customization_options_round_trip (Pizza.make "Margherita" "Dough" 10)
      [("extra_cheese", .pyBool true)] (.pyStr "not a dict")).2
      (fun _ hk => PyValue.noConfusion hk)⟩

/-- Claim C8: `get_price_for_size` returns the base price times the fixed
multiplier (small 1.0, medium 1.5, large 2.0) for each valid size, and fails
with `ValueError` for every other string; it never returns a new state. -/
theorem get_price_for_size_spec (p : Pizza) (s : String) :
    (s = "small" → p.get_price_for_size s = .ok (p.price * 1)) ∧
    (s = "medium" → p.get_price_for_size s = .ok (p.price * (3/2))) ∧
    (s = "large" → p.get_price_for_size s = .ok (p.price * 2)) ∧
    (s ≠ "small" → s ≠ "medium" → s ≠ "large" →
      p.get_price_for_size s = .error ("Invalid size: " ++ s)) := by
  refine ⟨?_, ?_, ?_, ?_⟩
  · rintro rfl; rfl
  · rintro rfl; rfl
  · rintro rfl; rfl
  · intro h1 h2 h3
    simp [Pizza.get_price_for_size, Pizza.VALID_SIZES, h1, h2, h3]

/-- Claim C8, instances: the three valid sizes on a base price of 10, and the
rejection of "extra-large". -/
theorem get_price_for_size_spec_witness :
    (Pizza.make "Margherita" "Dough" 10).get_price_for_size "small" =
      .ok (10 * 1) ∧
    (Pizza.make "Margherita" "Dough" 10).get_price_for_size "medium" =
      .ok (10 * (3/2)) ∧
    (Pizza.make "Margherita" "Dough" 10).get_price_for_size "large" =
      .ok (10 * 2) ∧
    (Pizza.make "Margherita" "Dough" 10).get_price_for_size "extra-large" =
      .error "Invalid size: extra-large" :=
  ⟨(get_price_for_size_spec (Pizza.make "Margherita" "Dough" 10) "small").1 rfl,
   (get_price_for_size_spec (Pizza.make "Margherita" "Dough" 10) "medium").2.1 rfl,
   (get_price_for_size_spec (Pizza.make "Margherita" "Dough" 10) "large").2.2.1 rfl,
   (get_price_for_size_spec (Pizza.make "Margherita" "Dough" 10)
      "extra-large").2.2.2 (by decide) (by decide) (by decide)⟩

/-- Claim C2: the create-association endpoint answers 201 with the serialized
row when the `try` body succeeds, 400 with the raised `ValueError`'s specific
message in `{"errors": [...]}`, and 400 with the generic
`{"errors": ["Invalid data"]}` for any other exception. -/
theorem create_restaurant_pizza_dispatch (data : List (String × PyValue))
    (persistOk : Bool) :
    (∀ rp, tryCreate data persistOk = .ok rp →
      create_restaurant_pizza data persistOk =
        { status := 201, body := rp.to_dict }) ∧
    (∀ m, tryCreate data persistOk = .valueError m →
      create_restaurant_pizza data persistOk =
        { status := 400, body := errorsBody [m] }) ∧
    (∀ m, tryCreate data persistOk = .otherError m →
      create_restaurant_pizza data persistOk =
        { status := 400, body := errorsBody ["Invalid data"] }) := by
  refine ⟨?_, ?_, ?_⟩ <;> intro x h <;> simp [create_restaurant_pizza, h]

/-- Claim C2, instances: a well-formed body persists and answers 201; a price
of 99 answers 400 with the specific range message; a body missing `pizza_id`
answers 400 with the generic message. -/
theorem create_restaurant_pizza_dispatch_witness :
    create_restaurant_pizza
        [("price", .pyInt 12), ("pizza_id", .pyInt 1),
         ("restaurant_id", .pyInt 1)] true =
      { status := 201,
        body := RestaurantPizza.to_dict
          { price := (12 : Int), pizza_id := 1, restaurant_id := 1 } } ∧
    create_restaurant_pizza
        [("price", .pyInt 99), ("pizza_id", .pyInt 1),
         ("restaurant_id", .pyInt 1)] true =
      { status := 400,
        body := errorsBody ["price must be between 1 and 30"] } ∧
    create_restaurant_pizza [("price", .pyInt 12)] true =
      { status := 400, body := errorsBody ["Invalid data"] } :=
  ⟨(create_restaurant_pizza_dispatch
      [("price", .pyInt 12), ("pizza_id", .pyInt 1), ("restaurant_id", .pyInt 1)]
      true).1 _ rfl,
   (create_restaurant_pizza_dispatch
      [("price", .pyInt 99), ("pizza_id", .pyInt 1), ("restaurant_id", .pyInt 1)]
      true).2.1 _ rfl,
   (create_restaurant_pizza_dispatch [("price", .pyInt 12)] true).2.2 _ rfl⟩

lemma afterStart_eq_all (st : Option Int) (now : Int) :
    afterStart st now = st.all fun s => decide (s ≤ now) := by
  cases st <;> rfl

lemma beforeEnd_eq_all (st : Option Int) (now : Int) :
    beforeEnd st now = st.all fun e => decide (now ≤ e) := by
  cases st <;> rfl

/-- Claim C4: `get_current_price` returns the special price exactly when the
spec's activity predicate holds — `is_special` true, `special_price` set, and
the call instant inside the open-ended offer window — and the base price in
every other case. -/
theorem get_current_price_spec (p : Pizza) (now : Int) :
    p.get_current_price now =
      if specialActiveB p now then p.special_price.getD p.price
      else p.price := by
  unfold Pizza.get_current_price specialActiveB
  cases hs : p.is_special <;> cases hp : p.special_price <;>
    simp [afterStart_eq_all, beforeEnd_eq_all, hp]

/-- The running-mean bounds: folding a rating in `[0, 5]` into a mean in
`[0, 5]` stays in `[0, 5]`. -/
lemma mean_step_bounds (a r : ℚ) (c : ℕ) (ha0 : 0 ≤ a) (ha5 : a ≤ 5)
    (hr0 : 0 ≤ r) (hr5 : r ≤ 5) :
    0 ≤ (a * (c : ℚ) + r) / ((c : ℚ) + 1) ∧
      (a * (c : ℚ) + r) / ((c : ℚ) + 1) ≤ 5 := by
  have hc0 : (0 : ℚ) ≤ (c : ℚ) := Nat.cast_nonneg c
  have hc : (0 : ℚ) < (c : ℚ) + 1 := by linarith
  constructor
  · apply div_nonneg _ hc.le
    have := mul_nonneg ha0 hc0
    linarith
  · rw [div_le_iff₀ hc]
    have h1 : a * (c : ℚ) ≤ 5 * (c : ℚ) := mul_le_mul_of_nonneg_right ha5 hc0
    linarith

/-- The rating invariant of the spec: `rating` lies in `[0, 5]`. -/
def ratingInv (p : Pizza) : Prop := 0 ≤ p.rating ∧ p.rating ≤ 5

/-- Claim C6: `0 ≤ rating ≤ 5` holds of a freshly constructed pizza (the
column default is 0.0) and is preserved by every operation; no operation other
than `update_rating` ever writes `rating`, and a successful `update_rating`
keeps it in `[0, 5]`. -/
theorem rating_invariant (p : Pizza) (n i : String) (pr r sp : ℚ)
    (s e : Option Int) (o : PyValue) (now : Int) (h : ratingInv p) :
    ratingInv (Pizza.make n i pr) ∧
    p.toggle_availability.rating = p.rating ∧
    (p.increment_order_count now).rating = p.rating ∧
    p.end_special_offer.rating = p.rating ∧
    (∀ p', p.set_customization_options o = .ok p' → p'.rating = p.rating) ∧
    (∀ p', p.set_special_offer sp s e = .ok p' → p'.rating = p.rating) ∧
    (∀ p', p.update_rating r = .ok p' → ratingInv p') := by
  refine ⟨⟨le_refl 0, ?_⟩, rfl, rfl, rfl, ?_, ?_, ?_⟩
  · show (0 : ℚ) ≤ 5
    norm_num
  · intro p' hp'
    cases o <;> simp [Pizza.set_customization_options] at hp'
    rw [← hp']
  · intro p' hp'
    unfold Pizza.set_special_offer at hp'
    split at hp'
    · exact absurd hp' (by simp)
    · simp at hp'
      simp [← hp']
  · intro p' hp'
    unfold Pizza.update_rating at hp'
    split at hp'
    · exact absurd hp' (by simp)
    · rename_i hrange
      push_neg at hrange
      simp only [Except.ok.injEq] at hp'
      have hb := mean_step_bounds p.rating r p.rating_count h.1 h.2
        hrange.1 hrange.2
      constructor
      · rw [← hp']
        simpa [Nat.cast_add] using hb.1
      · rw [← hp']
        simpa [Nat.cast_add] using hb.2

/-- Claim C6, instance: a fresh pizza starts at rating 0, the non-rating
operations keep the rating word-for-word, and one successful rating of 4 keeps
the invariant. -/
theorem rating_invariant_witness :
    ratingInv (Pizza.make "Margherita" "Dough" 10) ∧
    (Pizza.make "Margherita" "Dough" 10).toggle_availability.rating =
      (Pizza.make "Margherita" "Dough" 10).rating ∧
    (∀ p', (Pizza.make "Margherita" "Dough" 10).update_rating 4 = .ok p' →
      ratingInv p') := by
  obtain ⟨h1, h2, _, _, _, _, h7⟩ :=
    rating_invariant (Pizza.make "Margherita" "Dough" 10) "Margherita" "Dough"
      10 4 5 none none (.pyNone) 0 ⟨le_refl 0, by norm_num [Pizza.make]⟩
  exact ⟨h1, h2, h7⟩

/-- Unfolding one successful `update_rating` step. -/
lemma update_rating_ok (p : Pizza) (r : ℚ) (h0 : 0 ≤ r) (h5 : r ≤ 5) :
    p.update_rating r =
      .ok { p with rating_count := p.rating_count + 1,
                   rating := (p.rating * (p.rating_count : ℚ) + r) /
                     ((p.rating_count : ℚ) + 1) } := by
  unfold Pizza.update_rating
  rw [if_neg (by push_neg; exact ⟨h0, h5⟩)]
  simp [Nat.cast_add]

/-- Folding a list of in-range ratings never fails, adds their number to the
count, and accumulates their sum into the weighted mean. -/
lemma applyRatings_total (l : List ℚ) :
    ∀ p : Pizza, (∀ r ∈ l, 0 ≤ r ∧ r ≤ 5) →
    ∃ p', applyRatings p l = .ok p' ∧
      p'.rating_count = p.rating_count + l.length ∧
      p'.rating * ((p.rating_count : ℚ) + (l.length : ℚ)) =
        p.rating * (p.rating_count : ℚ) + l.sum ∧
      (l = [] → p' = p) := by
  induction l with
  | nil =>
      intro p _
      exact ⟨p, rfl, by simp, by simp, fun _ => rfl⟩
  | cons r t ih =>
      intro p hmem
      obtain ⟨hr0, hr5⟩ := hmem r (List.mem_cons_self r t)
      have hstep := update_rating_ok p r hr0 hr5
      set p1 : Pizza :=
        { p with rating_count := p.rating_count + 1,
                 rating := (p.rating * (p.rating_count : ℚ) + r) /
                   ((p.rating_count : ℚ) + 1) } with hp1
      obtain ⟨p', hok, hcount, hsum, -⟩ :=
        ih p1 (fun x hx => hmem x (List.mem_cons_of_mem r hx))
      refine ⟨p', ?_, ?_, ?_, by simp⟩
      · unfold applyRatings
        rw [hstep]
        exact hok
      · rw [hcount, hp1]
        simp [Nat.add_assoc, Nat.add_comm 1]
      · have hden : ((p.rating_count : ℚ) + 1) ≠ 0 := by positivity
        have hp1rat : p1.rating * ((p.rating_count : ℚ) + 1) =
            p.rating * (p.rating_count : ℚ) + r := by
          rw [hp1]
          exact div_mul_cancel₀ _ hden
        have hp1c : (p1.rating_count : ℚ) = (p.rating_count : ℚ) + 1 := by
          rw [hp1]; push_cast; ring
        rw [hp1c] at hsum
        calc p'.rating * ((p.rating_count : ℚ) + ((r :: t).length : ℚ))
            = p'.rating * ((p.rating_count : ℚ) + 1 + (t.length : ℚ)) := by
              simp only [List.length_cons]
              push_cast
              ring
          _ = p1.rating * ((p.rating_count : ℚ) + 1) + t.sum := hsum
          _ = p.rating * (p.rating_count : ℚ) + r + t.sum := by rw [hp1rat]
          _ = p.rating * (p.rating_count : ℚ) + (r :: t).sum := by
              rw [List.sum_cons]; ring

/-- From a fresh rating state, the fold yields the arithmetic mean. -/
lemma applyRatings_mean (p0 : Pizza) (l : List ℚ)
    (hl : ∀ r ∈ l, 0 ≤ r ∧ r ≤ 5) (h0 : p0.rating = 0)
    (hc : p0.rating_count = 0) :
    ∃ p', applyRatings p0 l = .ok p' ∧
      p'.rating = l.sum / (l.length : ℚ) ∧ p'.rating_count = l.length := by
  obtain ⟨p', hok, hcount, hsum, hnil⟩ := applyRatings_total l p0 hl
  rw [hc, Nat.zero_add] at hcount
  rw [h0, hc] at hsum
  simp only [Nat.cast_zero, zero_add, zero_mul] at hsum
  refine ⟨p', hok, ?_, hcount⟩
  cases l with
  | nil => simp [hnil rfl, h0]
  | cons r t =>
      have hlen : ((r :: t).length : ℚ) ≠ 0 :=
        (Nat.cast_pos.mpr (Nat.succ_pos t.length)).ne'
      rw [eq_div_iff hlen]
      exact hsum

/-- Claim C3: from a pizza whose rating state is fresh (`rating = 0`,
`rating_count = 0`), submitting any sequence of ratings in `[0, 5]` through
`update_rating` succeeds, leaves `rating` at the arithmetic mean of the
sequence and `rating_count` at its length; any permutation of the sequence
ends in the same rating and count. -/
theorem update_rating_mean (p0 : Pizza) (l l' : List ℚ)
    (hl : ∀ r ∈ l, 0 ≤ r ∧ r ≤ 5) (h0 : p0.rating = 0)
    (hc : p0.rating_count = 0) (hperm : l.Perm l') :
    ∃ p', applyRatings p0 l = .ok p' ∧
      p'.rating = l.sum / (l.length : ℚ) ∧ p'.rating_count = l.length ∧
      ∃ q', applyRatings p0 l' = .ok q' ∧ q'.rating = p'.rating ∧
        q'.rating_count = p'.rating_count := by
  obtain ⟨p', hok, hrat, hcount⟩ := applyRatings_mean p0 l hl h0 hc
  have hl' : ∀ r ∈ l', 0 ≤ r ∧ r ≤ 5 := fun r hr => hl r (hperm.mem_iff.mpr hr)
  obtain ⟨q', hok', hrat', hcount'⟩ := applyRatings_mean p0 l' hl' h0 hc
  refine ⟨p', hok, hrat, hcount, q', hok', ?_, ?_⟩
  · rw [hrat, hrat', hperm.sum_eq, hperm.length_eq]
  · rw [hcount, hcount', hperm.length_eq]

/-- Claim C3, instance: ratings `[5, 3, 1]` from a fresh pizza end at mean 3
with count 3, and so does the permutation `[1, 5, 3]`. -/
theorem update_rating_mean_witness :
    ∃ p', applyRatings (Pizza.make "Margherita" "Dough" 10) [5, 3, 1] =
        .ok p' ∧
      p'.rating = (5 + 3 + 1 : ℚ) / 3 ∧ p'.rating_count = 3 ∧
      ∃ q', applyRatings (Pizza.make "Margherita" "Dough" 10) [1, 5, 3] =
          .ok q' ∧ q'.rating = p'.rating ∧ q'.rating_count = p'.rating_count := by
  obtain ⟨p', hok, hrat, hcount, hq⟩ :=
    update_rating_mean (Pizza.make "Margherita" "Dough" 10) [5, 3, 1] [1, 5, 3]
      (by norm_num) rfl rfl (by decide)
  refine ⟨p', hok, ?_, hcount, hq⟩
  rw [hrat]
  norm_num

/-- Claim C9: `set_special_offer` never compares the two dates, so an offer
whose start lies after its end is accepted whenever the special price is below
the base price — yet at every call instant `get_current_price` falls back to
the base price and `get_discount_percentage` to `0.0`, because no instant
satisfies both bounds. -/
theorem special_offer_inverted_window (p : Pizza) (sp : ℚ) (s e : Int)
    (hse : e < s) (hsp : sp < p.price) :
    ∃ p', p.set_special_offer sp (some s) (some e) = .ok p' ∧
      p'.price = p.price ∧
      ∀ now : Int, p'.get_current_price now = p'.price ∧
        p'.get_discount_percentage now = 0 := by
  refine ⟨{ p with
            is_special := true, special_price := some sp,
            special_start_date := some s, special_end_date := some e },
          ?_, rfl, ?_⟩
  · simp [Pizza.set_special_offer, not_le.mpr hsp]
  · intro now
    have hguard : (afterStart (some s) now && beforeEnd (some e) now) = false := by
      simp only [afterStart, beforeEnd, Bool.and_eq_false_iff,
        decide_eq_false_iff_not, not_le]
      omega
    constructor
    · simp [Pizza.get_current_price, hguard]
    · simp [Pizza.get_discount_percentage, hguard]

/-- Claim C9, instance: base price 20, special price 10, window from day 5 to
day 3: the offer is created, yet at instant 4 (and at 0 and 100) the current
price is the base price and the discount is zero. -/
theorem special_offer_inverted_window_witness :
    ∃ p', (Pizza.make "Margherita" "Dough" 20).set_special_offer 10
        (some 5) (some 3) = .ok p' ∧
      p'.price = 20 ∧ p'.get_current_price 4 = p'.price ∧
      p'.get_discount_percentage 4 = 0 := by
  obtain ⟨p', hok, hpr, hall⟩ :=
    special_offer_inverted_window (Pizza.make "Margherita" "Dough" 20) 10 5 3
      (by decide) (by norm_num [Pizza.make])
  exact ⟨p', hok, hpr, (hall 4).1, (hall 4).2⟩

lemma floor_le_roundHalfEven (q : ℚ) : ⌊q⌋ ≤ roundHalfEven q := by
  simp only [roundHalfEven]
  split_ifs <;> omega

lemma pyRound2_ge_100 (x : ℚ) (hx : (100 : ℚ) < x) : (100 : ℚ) ≤ pyRound2 x := by
  have h1 : (10000 : ℚ) ≤ x * 100 := by linarith
  have h2 : (10000 : ℤ) ≤ ⌊x * 100⌋ := by
    rw [Int.le_floor]
    exact_mod_cast h1
  have h3 : (10000 : ℤ) ≤ roundHalfEven (x * 100) :=
    le_trans h2 (floor_le_roundHalfEven _)
  unfold pyRound2
  rw [le_div_iff₀ (by norm_num : (0 : ℚ) < 100)]
  calc (100 : ℚ) * 100 = ((10000 : ℤ) : ℚ) := by norm_num
    _ ≤ _ := by exact_mod_cast h3

/-- Claim C10, counterexample to "strictly greater than 100": with base price
1000 and the negative special price −1/100, the offer is accepted and active
with no date bounds, yet `round(((price - special_price) / price) * 100, 2)`
is exactly 100 — the unrounded discount 100.001 rounds down at the second
decimal. -/
theorem discount_rounds_to_exactly_100 :
    ∃ p', (Pizza.make "Margherita" "Dough" 1000).set_special_offer
        (-(1/100)) none none = .ok p' ∧
      (-(1/100) : ℚ) < 0 ∧ specialActiveB p' 0 = true ∧
      p'.get_discount_percentage 0 = 100 ∧
      ¬ (100 : ℚ) < p'.get_discount_percentage 0 := by
  have h100 : pyRound2 (((1000 - -(1/100)) / 1000) * 100) = 100 := by
    norm_num [pyRound2, roundHalfEven]
  refine ⟨{ Pizza.make "Margherita" "Dough" 1000 with
            is_special := true, special_price := some (-(1/100)),
            special_start_date := none, special_end_date := none },
          ?_, by norm_num, rfl, h100, ?_⟩
  · simp [Pizza.set_special_offer, Pizza.make]
    norm_num
  · show ¬ (100 : ℚ) < pyRound2 (((1000 - -(1/100)) / 1000) * 100)
    rw [h100]
    exact lt_irrefl 100

/-- Claim C10, amended: `set_special_offer` enforces no lower bound on the
special price — on a pizza with positive base price it succeeds for any value
strictly below that price, zero and negative values included — and for a
negative special price an active offer makes `get_discount_percentage` return
at least 100 (the unrounded discount exceeds 100, but rounding to two decimals
can land exactly on 100). -/
theorem special_offer_no_lower_bound (p : Pizza) (sp : ℚ) (s e : Option Int)
    (now : Int) (hpos : 0 < p.price) (hlt : sp < p.price) :
    ∃ p', p.set_special_offer sp s e = .ok p' ∧
      (sp < 0 → specialActiveB p' now = true →
        100 ≤ p'.get_discount_percentage now) := by
  refine ⟨{ p with
            is_special := true, special_price := some sp,
            special_start_date := s, special_end_date := e }, ?_, ?_⟩
  · simp [Pizza.set_special_offer, not_le.mpr hlt]
  · intro hneg hact
    have hguard : (afterStart s now && beforeEnd e now) = true := by
      rw [afterStart_eq_all, beforeEnd_eq_all]
      simpa [specialActiveB] using hact
    have hx : (100 : ℚ) < ((p.price - sp) / p.price) * 100 := by
      have h1 : (1 : ℚ) < (p.price - sp) / p.price := by
        rw [lt_div_iff₀ hpos]
        linarith
      linarith
    have : Pizza.get_discount_percentage
        { p with is_special := true, special_price := some sp,
                 special_start_date := s, special_end_date := e } now =
        pyRound2 (((p.price - sp) / p.price) * 100) := by
      simp [Pizza.get_discount_percentage, hguard]
    rw [this]
    exact pyRound2_ge_100 _ hx

/-- Claim C10 (amended), instances: on a base price of 20, a special price of
zero is accepted, and the negative special price −5 is accepted with a
reported discount of at least 100 while active. -/
theorem special_offer_no_lower_bound_witness :
    (∃ p', (Pizza.make "Margherita" "Dough" 20).set_special_offer 0
        none none = .ok p' ∧
      ((0 : ℚ) < 0 → specialActiveB p' 0 = true →
        100 ≤ p'.get_discount_percentage 0)) ∧
    (∃ p', (Pizza.make "Margherita" "Dough" 20).set_special_offer (-5)
        none none = .ok p' ∧
      ((-5 : ℚ) < 0 → specialActiveB p' 0 = true →
        100 ≤ p'.get_discount_percentage 0)) :=
  ⟨special_offer_no_lower_bound (Pizza.make "Margherita" "Dough" 20) 0
      none none 0 (by norm_num [Pizza.make]) (by norm_num [Pizza.make]),
   special_offer_no_lower_bound (Pizza.make "Margherita" "Dough" 20) (-5)
      none none 0 (by norm_num [Pizza.make]) (by norm_num [Pizza.make])⟩

end PizzaApi
